import Mathlib

/-!
Shallow embedding of `src/src/main.rs` of the `athletic` repository:
a camera capture/introspection CLI. Pure functions of the source are
translated directly; effectful parts (channel receive, image decode,
camera queries) are made explicit by passing their results as arguments.
-/

namespace Athletic

/-! ### Device selector (`IndexKind`, src/src/main.rs lines 65-80) -/

/-- Source `enum IndexKind { String(String), Index(u32) }` (main.rs lines 66-69).
The `u32` payload is a `Nat` kept below `2^32` by the parser. -/
inductive IndexKind where
  | string (s : String)
  | index (i : Nat)
deriving DecidableEq

/-- One decimal digit of Rust's `u32::from_str`, or `none`. -/
def rustDigit? (c : Char) : Option Nat :=
  if '0' ≤ c ∧ c ≤ '9' then some (c.toNat - '0'.toNat) else none

/-- Base-10 accumulation over the digit characters; `none` when a
non-digit appears. -/
def rustDigitsVal? (cs : List Char) : Option Nat :=
  cs.foldl
    (fun acc c =>
      match acc, rustDigit? c with
      | some a, some d => some (a * 10 + d)
      | _, _ => none)
    (some 0)

/-- Rust's `str::parse::<u32>` (`u32::from_str`): an optional leading `'+'`,
then a nonempty run of decimal digits whose value fits in 32 bits.
A leading `'-'`, any other non-digit, the empty string, or overflow all
fail. Rust checks overflow at each accumulation step; since appending a
digit never decreases the value, that is equivalent to the final-value
bound used here. -/
def rust_parse_u32 (s : String) : Option Nat :=
  let cs := s.data
  let digits := match cs with
    | '+' :: rest => rest
    | _ => cs
  if digits.isEmpty then none
  else
    match rustDigitsVal? digits with
    | some v => if v < 2 ^ 32 then some v else none
    | none => none

/-- Source `impl FromStr for IndexKind` (main.rs lines 71-80): try `u32` first,
fall back to the string itself; never an error. The `Report` error type is
embedded as `String`. -/
def IndexKind.from_str (s : String) : Except String IndexKind :=
  match rust_parse_u32 s with
  | some p => Except.ok (IndexKind.index p)
  | none => Except.ok (IndexKind.string s)

/-! ### Property kind (`PropertyKind`, src/src/main.rs lines 99-118) -/

/-- Source `enum PropertyKind { All, Controls, CompatibleFormats }` (lines 100-104). -/
inductive PropertyKind where
  | all
  | controls
  | compatibleFormats
deriving DecidableEq

/-- Source `impl FromStr for PropertyKind` (main.rs lines 106-118): an exact
match over the listed string literals, otherwise the
`unknown PropertyKind` error. -/
def PropertyKind.from_str (s : String) : Except String PropertyKind :=
  match s with
  | "All" | "ALL" | "all" => Except.ok PropertyKind.all
  | "Controls" | "controls" | "CONTROLS" | "ctrls" => Except.ok PropertyKind.controls
  | "CompatibleFormats" | "compatibleformats" | "COMPATIBLEFORMATS" | "cf"
  | "compatfmts" => Except.ok PropertyKind.compatibleFormats
  | _ => Except.error ("unknown PropertyKind: " ++ s)

/-! ### Commands and top-level dispatch (src/src/main.rs lines 82-190) -/

/-- Source `enum Commands` as parsed from the CLI (main.rs lines 82-89). -/
inductive Commands where
  | listDevices
  | listProperties (device : Option IndexKind) (kind : Option PropertyKind)
deriving DecidableEq

/-- The action `nokhwa_main` takes after inspecting `cli.command`
(main.rs lines 132-190).  The first four constructors are the actions the
code can take; `streamDisplay` follows the spec's words for the claimed
implicit stream/display default mode, so that the dispatch can be compared
against the spec (the code never produces it). -/
inductive MainAction where
  | printUnknownCommand
  | printExpectedKindArgument
  | runListDevices
  | runListProperties (device : Option IndexKind) (kind : PropertyKind)
  | streamDisplay (device : Option IndexKind)
deriving DecidableEq

/-- The dispatch of `nokhwa_main` on the parsed command (main.rs lines 132-190):
a missing command prints `Unknown command "". Do --help for info.` and
returns; `ListProperties` without a kind prints the expected-argument
message and returns; otherwise the chosen operation runs. -/
def nokhwa_main (command : Option Commands) : MainAction :=
  match command with
  | none => MainAction.printUnknownCommand
  | some Commands.listDevices => MainAction.runListDevices
  | some (Commands.listProperties device kind) =>
    match kind with
    | none => MainAction.printExpectedKindArgument
    | some k => MainAction.runListProperties device k

/-- Library type `nokhwa::utils::CameraIndex`: the index handed to `Camera::new`. -/
inductive CameraIndex where
  | index (i : Nat)
  | string (s : String)
deriving DecidableEq

/-- Main.rs lines 167-170: `device.as_ref().unwrap_or(&IndexKind::Index(0))`
converted to a `CameraIndex`. -/
def resolve_index (device : Option IndexKind) : CameraIndex :=
  match device.getD (IndexKind.index 0) with
  | IndexKind.string s => CameraIndex.string s
  | IndexKind.index i => CameraIndex.index i

/-! ### Resolutions and compatible-format listing (src/src/main.rs lines 201-216) -/

/-- Library type `nokhwa::utils::Resolution`: a width/height pair (fields named as in
the library). The widths are `u32`; claims here never exercise overflow,
so `Nat` is used. -/
structure Resolution where
  width_x : Nat
  height_y : Nat
deriving DecidableEq

/-- Modelled from the spec: the comparator `Resolution::cmp` used by
`formats.sort_by(|a, b| a.0.cmp(&b.0))` (main.rs line 209) lives in the
`nokhwa` library, not under `src/`; the spec's ordering contract says
resolution comparison is a total order comparing "width first, then
height". -/
def Resolution.cmp (a b : Resolution) : Ordering :=
  match compare a.width_x b.width_x with
  | Ordering.eq => compare a.height_y b.height_y
  | o => o

/-- The frame-rate list attached to a resolution (`Vec<u32>` of fps). -/
abbrev FrameRates := List Nat

/-- The Boolean "less or equal" that Rust's stable `sort_by` with
comparator `a.0.cmp(&b.0)` establishes between adjacent elements of its
output: the comparator does not answer `Greater`. -/
def formatLe (a b : Resolution × FrameRates) : Bool :=
  Resolution.cmp a.1 b.1 != Ordering.gt

/-- Main.rs line 209: `formats.sort_by(|a, b| a.0.cmp(&b.0))` — a stable
sort of the collected (resolution, frame-rates) pairs by resolution. -/
def sortFormats (formats : List (Resolution × FrameRates)) :
    List (Resolution × FrameRates) :=
  formats.mergeSort formatLe

/-- The spec's reading of the resolution order, for comparison with the
sort: ascending by width first, then height. -/
def resLeProp (a b : Resolution) : Prop :=
  a.width_x < b.width_x ∨ (a.width_x = b.width_x ∧ a.height_y ≤ b.height_y)

/-- Library type `nokhwa::utils::FrameFormat`: the fixed, enumerable set of
frame-format kinds (`frame_formats()` iterates over all of them). -/
inductive FrameFormat where
  | mjpeg
  | yuyv
  | nv12
  | gray
  | rawRgb
deriving DecidableEq

/-- The fixed list `frame_formats()` returns (one entry per kind). -/
def frame_formats : List FrameFormat :=
  [FrameFormat.mjpeg, FrameFormat.yuyv, FrameFormat.nv12, FrameFormat.gray,
    FrameFormat.rawRgb]

/-- One printed line of `camera_compatible_formats` (main.rs lines
204 and 212): either the `"{ffmt}:"` header or an indented
`" - {resolution}: {res:?}"` pair line. -/
inductive OutputLine where
  | header (ffmt : FrameFormat)
  | pair (resolution : Resolution) (fps : FrameRates)
deriving DecidableEq

/-- The device's answer to `cam.compatible_list_by_resolution(ffmt)` for
each frame-format kind; the error payload is opaque. -/
abbrev CompatQuery := FrameFormat → Except Unit (List (Resolution × FrameRates))

/-- The lines one iteration of the `for ffmt in frame_formats()` loop
prints (main.rs lines 202-215): nothing when the query fails, otherwise
the header followed by the sorted pair lines. -/
def kindOutput (cam : CompatQuery) (ffmt : FrameFormat) : List OutputLine :=
  match cam ffmt with
  | Except.error _ => []
  | Except.ok compatible =>
    OutputLine.header ffmt ::
      (sortFormats compatible).map (fun fmt => OutputLine.pair fmt.1 fmt.2)

/-- The whole loop of `camera_compatible_formats`, generalized over the
list of kinds it iterates. -/
def camera_compatible_formats_over (fmts : List FrameFormat)
    (cam : CompatQuery) : List OutputLine :=
  fmts.flatMap (kindOutput cam)

/-- Source `camera_compatible_formats` (main.rs lines 201-216): iterate every
known frame-format kind in order. -/
def camera_compatible_formats (cam : CompatQuery) : List OutputLine :=
  camera_compatible_formats_over frame_formats cam

/-! ### list-properties (src/src/main.rs lines 166-199) -/

/-- What an opened camera can report for the list-properties operation:
its rendered control lines (`camera_controls()`, each printed with
`Display`) and its compatible-format query. -/
structure CameraEnv where
  controls : List String
  compat : CompatQuery

/-- One printed line of the list-properties operation. -/
inductive PropLine where
  | controlsHeader (index : CameraIndex)
  | control (s : String)
  | compat (l : OutputLine)
deriving DecidableEq

/-- Source `camera_print_controls` (main.rs lines 192-199): the
`Controls for camera {index}` header followed by one line per control. -/
def camera_print_controls (index : CameraIndex) (env : CameraEnv) :
    List PropLine :=
  PropLine.controlsHeader index :: env.controls.map PropLine.control

/-- The `CommandsProper::ListProperties` arm (main.rs lines 166-188):
resolve the device selector (defaulting to index 0), open that camera,
and print according to the property kind. The camera environment is a
function of the resolved index, standing for `Camera::new(index, ..)` on
a machine where every open succeeds. -/
def run_list_properties (device : Option IndexKind) (kind : PropertyKind)
    (cameras : CameraIndex → CameraEnv) : List PropLine :=
  let index := resolve_index device
  let env := cameras index
  match kind with
  | PropertyKind.all =>
    camera_print_controls index env ++
      (camera_compatible_formats env.compat).map PropLine.compat
  | PropertyKind.controls => camera_print_controls index env
  | PropertyKind.compatibleFormats =>
    (camera_compatible_formats env.compat).map PropLine.compat

/-! ### Decoded size and the draw step (src/src/main.rs lines 25-56) -/

/-- Modelled from the spec: `nokhwa::utils::yuyv422_predicted_size`
(called at main.rs line 42) lives in the `nokhwa` library, not under
`src/`. Per the spec's decoded-size rule, one sample pair of 4 raw
4:2:2 bytes expands to 2 pixels of 4 (alpha) or 3 (no alpha) output
bytes, the raw length being taken in whole 4-byte sample pairs
(integer division). -/
def yuyv422_predicted_size (size : Nat) (rgba : Bool) : Nat :=
  let pixel_size := if rgba then 4 else 3
  size / 4 * (2 * pixel_size)

/-- Rust's `Vec::resize(new_len, value)`: truncate when shrinking, pad
with `value` when growing (main.rs lines 41-42). -/
def vec_resize (v : List Nat) (newLen : Nat) (value : Nat) : List Nat :=
  if newLen ≤ v.length then v.take newLen
  else v ++ List.replicate (newLen - v.length) value

/-- The slice of `nokhwa::utils::CameraFormat` the draw step reads:
`self.format.width()` and `self.format.height()` (main.rs lines 50-51). -/
structure CameraFormat where
  width : Nat
  height : Nat
deriving DecidableEq

/-- Source `struct CaptureState` (main.rs lines 25-29) minus the channel handle:
the channel receive is passed to `draw` as an explicit result. -/
structure CaptureState where
  buffer : List Nat
  format : CameraFormat
deriving DecidableEq

/-- Library type `ggez::GameError`, restricted to the variant this code constructs. -/
inductive GameError where
  | renderError (msg : String)
deriving DecidableEq

/-- A successfully presented frame: the pixel bytes handed to
`Image::from_pixels` with the negotiated width and height
(main.rs lines 46-54). -/
structure Presented where
  pixels : List Nat
  width : Nat
  height : Nat
deriving DecidableEq

/-- Source `CaptureState::draw` (main.rs lines 36-55). The two effectful calls
are explicit: `recvResult` is the outcome of `self.receiver.recv()`
(the received raw frame bytes or the channel error message), and
`decode` is `Buffer::decode_image_to_buffer::<RgbAFormat>` writing into
the resized buffer (its argument), yielding the decoded bytes or the
decode error message. On success the new state and the presented frame
are returned; on failure the error is mapped to
`GameError::RenderError(why.to_string())` and nothing is presented. -/
def CaptureState.draw (st : CaptureState)
    (recvResult : Except String (List Nat))
    (decode : List Nat → Except String (List Nat)) :
    Except GameError (CaptureState × Presented) :=
  match recvResult with
  | Except.error why => Except.error (GameError.renderError why)
  | Except.ok raw =>
    let resized := vec_resize st.buffer (yuyv422_predicted_size raw.length true) 0
    match decode resized with
    | Except.error why => Except.error (GameError.renderError why)
    | Except.ok decoded =>
      Except.ok
        ({ st with buffer := decoded },
          { pixels := decoded, width := st.format.width,
            height := st.format.height })

/-! ### Claims about parsing and dispatch -/

/-- C2, counterexample: the claim says `"CF"` parses to
`CompatibleFormats`, but `PropertyKind::from_str` matches only the exact
literals of main.rs lines 110-115 — `"cf"` is listed, `"CF"` is not —
so `"CF"` falls through to the `unknown PropertyKind` error. -/
theorem propertyKind_from_str_CF_rejected :
    PropertyKind.from_str "CF" = Except.error "unknown PropertyKind: CF" := by
  rfl

/-- C2, amended: property-kind parsing accepts exactly the listed
literals — `"All"`/`"ALL"`/`"all"` for All, `"Controls"`/`"controls"`/
`"CONTROLS"`/`"ctrls"` for Controls, `"CompatibleFormats"`/
`"compatibleformats"`/`"COMPATIBLEFORMATS"`/`"cf"`/`"compatfmts"` for
CompatibleFormats — and any other string, including the uppercase alias
`"CF"` and `"bogus"`, is rejected with the unknown-PropertyKind error. -/
theorem propertyKind_from_str_exact_literals :
    PropertyKind.from_str "All" = Except.ok PropertyKind.all ∧
    PropertyKind.from_str "ALL" = Except.ok PropertyKind.all ∧
    PropertyKind.from_str "all" = Except.ok PropertyKind.all ∧
    PropertyKind.from_str "Controls" = Except.ok PropertyKind.controls ∧
    PropertyKind.from_str "controls" = Except.ok PropertyKind.controls ∧
    PropertyKind.from_str "CONTROLS" = Except.ok PropertyKind.controls ∧
    PropertyKind.from_str "ctrls" = Except.ok PropertyKind.controls ∧
    PropertyKind.from_str "CompatibleFormats" = Except.ok PropertyKind.compatibleFormats ∧
    PropertyKind.from_str "compatibleformats" = Except.ok PropertyKind.compatibleFormats ∧
    PropertyKind.from_str "COMPATIBLEFORMATS" = Except.ok PropertyKind.compatibleFormats ∧
    PropertyKind.from_str "cf" = Except.ok PropertyKind.compatibleFormats ∧
    PropertyKind.from_str "compatfmts" = Except.ok PropertyKind.compatibleFormats ∧
    PropertyKind.from_str "CF" = Except.error "unknown PropertyKind: CF" ∧
    PropertyKind.from_str "bogus" = Except.error "unknown PropertyKind: bogus" := by
  refine ⟨?_, ?_, ?_, ?_, ?_, ?_, ?_, ?_, ?_, ?_, ?_, ?_, ?_, ?_⟩ <;> rfl

/-- C3, counterexample: invoked with no command verb, `nokhwa_main`
prints the unknown-command message and returns (main.rs lines 135-141);
it does not run a stream/display mode. -/
theorem nokhwa_main_no_command_not_stream :
    nokhwa_main none = MainAction.printUnknownCommand ∧
    nokhwa_main none ≠ MainAction.streamDisplay none := by
  exact ⟨rfl, by decide⟩

/-- C3, amended: when the program is invoked with no command verb it
prints `Unknown command "". Do --help for info.` and returns without
opening a device or presenting frames (no stream/display mode exists in
the dispatch). -/
theorem nokhwa_main_no_command_prints_unknown :
    nokhwa_main none = MainAction.printUnknownCommand := rfl

/-- C7: device-selector parsing tries `u32` first and falls back to the
string identifier — `"0"` is index 0, `"007"` is index 7, `"front-cam"`
is the string `"front-cam"`; in general a successful integer parse wins
and a failed one yields the string. -/
theorem indexKind_from_str_int_first :
    IndexKind.from_str "0" = Except.ok (IndexKind.index 0) ∧
    IndexKind.from_str "007" = Except.ok (IndexKind.index 7) ∧
    IndexKind.from_str "front-cam" = Except.ok (IndexKind.string "front-cam") ∧
    (∀ s n, rust_parse_u32 s = some n →
      IndexKind.from_str s = Except.ok (IndexKind.index n)) ∧
    (∀ s, rust_parse_u32 s = none →
      IndexKind.from_str s = Except.ok (IndexKind.string s)) := by
  refine ⟨rfl, rfl, rfl, ?_, ?_⟩
  · intro s n h
    simp [IndexKind.from_str, h]
  · intro s h
    simp [IndexKind.from_str, h]

/-- C7, witness: the two conditional parts of
`indexKind_from_str_int_first` at concrete inputs. -/
theorem indexKind_from_str_int_first_witness :
    IndexKind.from_str "42" = Except.ok (IndexKind.index 42) ∧
    IndexKind.from_str "cam-a" = Except.ok (IndexKind.string "cam-a") :=
  ⟨indexKind_from_str_int_first.2.2.2.1 "42" 42 rfl,
    indexKind_from_str_int_first.2.2.2.2 "cam-a" rfl⟩

/-- C9: for list-properties an omitted device selector resolves to
integer index 0, and the whole operation behaves identically to an
explicit selector of index 0, whatever the property kind and whatever
the cameras report. -/
theorem list_properties_default_index_zero :
    resolve_index none = CameraIndex.index 0 ∧
    ∀ (kind : PropertyKind) (cameras : CameraIndex → CameraEnv),
      run_list_properties none kind cameras =
        run_list_properties (some (IndexKind.index 0)) kind cameras :=
  ⟨rfl, fun _ _ => rfl⟩

/-- C10: device-selector parsing is total — every string yields `Ok` —
and strings outside the `u32` range, such as `"-1"` and
`"4294967296"` (`2^32`), become string identifiers. -/
theorem indexKind_from_str_total :
    (∀ s, (IndexKind.from_str s).isOk = true) ∧
    IndexKind.from_str "-1" = Except.ok (IndexKind.string "-1") ∧
    IndexKind.from_str "4294967296" =
      Except.ok (IndexKind.string "4294967296") := by
  refine ⟨?_, rfl, rfl⟩
  intro s
  unfold IndexKind.from_str
  cases rust_parse_u32 s <;> rfl

/-! ### Ordering facts about the compatible-formats sort -/

/-- The comparator answers `Greater` exactly when the left resolution is
strictly after the right in the width-then-height order. -/
theorem Resolution.cmp_eq_gt (a b : Resolution) :
    Resolution.cmp a b = Ordering.gt ↔
      b.width_x < a.width_x ∨
        (a.width_x = b.width_x ∧ b.height_y < a.height_y) := by
  unfold Resolution.cmp
  rcases hw : compare a.width_x b.width_x with _ | _ | _
  · have h1 : a.width_x < b.width_x := Nat.compare_eq_lt.mp hw
    simp only []
    simp
    omega
  · have h1 : a.width_x = b.width_x := Nat.compare_eq_eq.mp hw
    simp only []
    rw [Nat.compare_eq_gt]
    omega
  · have h1 : b.width_x < a.width_x := Nat.compare_eq_gt.mp hw
    simp only []
    simp
    omega

/-- The comparator-induced Boolean order coincides with ascending
width-then-height. -/
theorem formatLe_iff (a b : Resolution × FrameRates) :
    formatLe a b = true ↔ resLeProp a.1 b.1 := by
  have hbne : ∀ x y : Ordering, (x != y) = true ↔ ¬ x = y := by
    intro x y
    cases x <;> cases y <;> decide
  rw [formatLe, hbne, Resolution.cmp_eq_gt]
  unfold resLeProp
  omega

theorem formatLe_trans (a b c : Resolution × FrameRates) :
    formatLe a b → formatLe b c → formatLe a c := by
  intro h1 h2
  rw [formatLe_iff] at *
  unfold resLeProp at *
  omega

theorem formatLe_total (a b : Resolution × FrameRates) :
    formatLe a b || formatLe b a := by
  rw [Bool.or_eq_true, formatLe_iff, formatLe_iff]
  unfold resLeProp
  omega

theorem resLeProp_antisymm (a b : Resolution) :
    resLeProp a b → resLeProp b a → a = b := by
  intro h1 h2
  obtain ⟨aw, ah⟩ := a
  obtain ⟨bw, bh⟩ := b
  unfold resLeProp at h1 h2
  simp only [Resolution.mk.injEq]
  simp only at h1 h2
  omega

/-- The listing's sort leaves the pairs ordered ascending by width, then
height. -/
theorem sortFormats_pairwise (l : List (Resolution × FrameRates)) :
    (sortFormats l).Pairwise fun a b => resLeProp a.1 b.1 := by
  have h := List.sorted_mergeSort formatLe_trans formatLe_total l
  exact h.imp fun hab => (formatLe_iff _ _).1 hab

/-- A permutation with equal, duplicate-free key lists is equality. -/
theorem eq_of_perm_of_map_fst_eq :
    ∀ l₁ l₂ : List (Resolution × FrameRates), l₁.Perm l₂ →
      l₁.map Prod.fst = l₂.map Prod.fst → (l₁.map Prod.fst).Nodup →
      l₁ = l₂ := by
  intro l₁
  induction l₁ with
  | nil =>
    intro l₂ hp _ _
    exact hp.nil_eq
  | cons p t₁ ih =>
    intro l₂ hp hm hn
    cases l₂ with
    | nil => exact absurd hp (by simp)
    | cons q t₂ =>
      simp only [List.map_cons, List.cons.injEq] at hm
      obtain ⟨hpq, htm⟩ := hm
      simp only [List.map_cons, List.nodup_cons] at hn
      obtain ⟨hnotin, hnd⟩ := hn
      have hpmem : p ∈ q :: t₂ := hp.mem_iff.mp (List.mem_cons_self p t₁)
      have hpq' : p = q := by
        rcases List.mem_cons.mp hpmem with h | h
        · exact h
        · exact absurd (htm ▸ List.mem_map_of_mem Prod.fst h) hnotin
      subst hpq'
      rw [ih t₂ hp.cons_inv htm hnd]

/-- When the device reports no duplicate resolutions, the sorted result
does not depend on the discovery order. -/
theorem sortFormats_perm_invariant :
    ∀ l₁ l₂ : List (Resolution × FrameRates), l₁.Perm l₂ →
      (l₁.map Prod.fst).Nodup → sortFormats l₁ = sortFormats l₂ := by
  intro l₁ l₂ hp hn
  haveI : IsAntisymm Resolution resLeProp := ⟨resLeProp_antisymm⟩
  have p₁ : (sortFormats l₁).Perm l₁ := List.mergeSort_perm l₁ formatLe
  have p₂ : (sortFormats l₂).Perm l₂ := List.mergeSort_perm l₂ formatLe
  have hps : (sortFormats l₁).Perm (sortFormats l₂) :=
    p₁.trans (hp.trans p₂.symm)
  have hm₁ : ((sortFormats l₁).map Prod.fst).Pairwise resLeProp :=
    (sortFormats_pairwise l₁).map Prod.fst fun a b h => h
  have hm₂ : ((sortFormats l₂).map Prod.fst).Pairwise resLeProp :=
    (sortFormats_pairwise l₂).map Prod.fst fun a b h => h
  have hkeys : (sortFormats l₁).map Prod.fst = (sortFormats l₂).map Prod.fst :=
    List.eq_of_perm_of_sorted (hps.map Prod.fst) hm₁ hm₂
  have hnd : ((sortFormats l₁).map Prod.fst).Nodup :=
    ((p₁.map Prod.fst).nodup_iff).2 hn
  exact eq_of_perm_of_map_fst_eq _ _ hps hkeys hnd

unseal List.merge List.mergeSort in
/-- C1: within one succeeding frame-format kind, the pairs printed by
the compatible-formats listing are the sorted pairs, the sort leaves
them ascending by width then height (a pure function of width and
height: with duplicate-free resolutions the result is independent of
the reported order), and the spec's concrete resolutions come out as
(320,240), (640,360), (640,480), (1280,720). -/
theorem compatible_formats_sorted_by_resolution :
    (∀ (cam : CompatQuery) (f : FrameFormat) compatible,
      cam f = Except.ok compatible →
        kindOutput cam f = OutputLine.header f ::
          (sortFormats compatible).map fun p => OutputLine.pair p.1 p.2) ∧
    (∀ l, (sortFormats l).Pairwise fun a b => resLeProp a.1 b.1) ∧
    (∀ l₁ l₂ : List (Resolution × FrameRates), l₁.Perm l₂ →
      (l₁.map Prod.fst).Nodup → sortFormats l₁ = sortFormats l₂) ∧
    (sortFormats [(⟨640, 480⟩, []), (⟨320, 240⟩, []), (⟨1280, 720⟩, []),
        (⟨640, 360⟩, [])]).map Prod.fst =
      [⟨320, 240⟩, ⟨640, 360⟩, ⟨640, 480⟩, ⟨1280, 720⟩] := by
  refine ⟨?_, sortFormats_pairwise, sortFormats_perm_invariant, ?_⟩
  · intro cam f compatible h
    simp [kindOutput, h]
  · show (List.mergeSort _ formatLe).map Prod.fst = _
    rw [show List.mergeSort [((⟨640, 480⟩ : Resolution), ([] : FrameRates)),
      (⟨320, 240⟩, []), (⟨1280, 720⟩, []), (⟨640, 360⟩, [])] formatLe =
      [(⟨320, 240⟩, []), (⟨640, 360⟩, []), (⟨640, 480⟩, []),
        (⟨1280, 720⟩, [])] from by decide]
    rfl

/-- C1, witness: the conditional parts of
`compatible_formats_sorted_by_resolution` at concrete inputs. -/
theorem compatible_formats_sorted_by_resolution_witness :
    (kindOutput (fun _ => Except.ok [(⟨320, 240⟩, [30])]) FrameFormat.yuyv =
      OutputLine.header FrameFormat.yuyv ::
        (sortFormats [(⟨320, 240⟩, [30])]).map
          fun p => OutputLine.pair p.1 p.2) ∧
    sortFormats [(⟨640, 480⟩, []), (⟨320, 240⟩, [])] =
      sortFormats [(⟨320, 240⟩, []), (⟨640, 480⟩, [])] :=
  ⟨compatible_formats_sorted_by_resolution.1 _ FrameFormat.yuyv _ rfl,
    compatible_formats_sorted_by_resolution.2.2.1 _ _
      (List.Perm.swap _ _ _) (by decide)⟩

/-! ### Claims about empty and failing format-kind queries -/

/-- C5, counterexample: a frame-format kind whose query succeeds with no
compatible combinations still produces output — its header line is
printed before the (empty) pair list, because main.rs line 204 prints
the header as soon as the query is `Ok`. -/
theorem compat_empty_kind_prints_header :
    camera_compatible_formats
        (fun f => if f = FrameFormat.yuyv then Except.ok [] else
          Except.error ()) =
      [OutputLine.header FrameFormat.yuyv] := by
  simp [camera_compatible_formats, camera_compatible_formats_over,
    frame_formats, kindOutput, sortFormats]

/-- C5, amended: a frame-format kind whose query succeeds but yields no
combinations produces exactly its header line and no resolution lines;
only a kind whose query fails is omitted entirely. -/
theorem compat_empty_kind_header_only :
    ∀ (cam : CompatQuery) (f : FrameFormat), cam f = Except.ok [] →
      kindOutput cam f = [OutputLine.header f] := by
  intro cam f h
  simp [kindOutput, h, sortFormats]

/-- C5, witness: `compat_empty_kind_header_only` at a concrete query. -/
theorem compat_empty_kind_header_only_witness :
    kindOutput (fun _ => Except.ok []) FrameFormat.mjpeg =
      [OutputLine.header FrameFormat.mjpeg] :=
  compat_empty_kind_header_only (fun _ => Except.ok []) FrameFormat.mjpeg rfl

/-- C6: a failing per-kind query contributes no output and the
enumeration of every other kind proceeds as if the failing kind were
absent; the enumeration itself always returns (the failure is not
propagated). -/
theorem compat_kind_failure_skipped :
    ∀ (fmts₁ fmts₂ : List FrameFormat) (f : FrameFormat) (cam : CompatQuery),
      cam f = Except.error () →
      camera_compatible_formats_over (fmts₁ ++ f :: fmts₂) cam =
        camera_compatible_formats_over (fmts₁ ++ fmts₂) cam := by
  intro fmts₁ fmts₂ f cam h
  simp [camera_compatible_formats_over, kindOutput, h]

/-- C6, witness: `compat_kind_failure_skipped` with the YUYV query
failing between MJPEG and GRAY. -/
theorem compat_kind_failure_skipped_witness :
    camera_compatible_formats_over
        [FrameFormat.mjpeg, FrameFormat.yuyv, FrameFormat.gray]
        (fun g => if g = FrameFormat.yuyv then Except.error () else
          Except.ok []) =
      camera_compatible_formats_over [FrameFormat.mjpeg, FrameFormat.gray]
        (fun g => if g = FrameFormat.yuyv then Except.error () else
          Except.ok []) :=
  compat_kind_failure_skipped [FrameFormat.mjpeg] [FrameFormat.gray]
    FrameFormat.yuyv _ rfl

/-! ### Claims about the decoded size and the draw step -/

/-- C4, counterexample: the decoded-size computation with alpha is not
`2 * n` for every raw length `n` — at `n = 2` (half a sample pair) it
returns `0`, not `4`: only whole 4-byte sample pairs are counted. -/
theorem yuyv422_predicted_size_not_always_double :
    yuyv422_predicted_size 2 true ≠ 2 * 2 ∧
      yuyv422_predicted_size 2 true = 0 := by
  decide

/-- C4, amended: the decoded-size computation with alpha enabled returns
`n / 4 * 8` — each whole 4-byte sample pair expands to 8 output bytes —
which equals `2 * n` exactly when `n` is a multiple of 4 (the raw
4:2:2 length of any whole frame). -/
theorem yuyv422_predicted_size_alpha (n : Nat) :
    yuyv422_predicted_size n true = n / 4 * 8 ∧
      (4 ∣ n → yuyv422_predicted_size n true = 2 * n) := by
  constructor
  · rfl
  · rintro ⟨k, rfl⟩
    simp [yuyv422_predicted_size]
    omega

/-- C4, witness: `yuyv422_predicted_size_alpha` at `n = 8`. -/
theorem yuyv422_predicted_size_alpha_witness :
    yuyv422_predicted_size 8 true = 2 * 8 :=
  (yuyv422_predicted_size_alpha 8).2 ⟨2, rfl⟩

/-- C8: every failure of the presentation step — the channel receive
returning an error, or the decode into the resized buffer returning an
error — makes `draw` return `GameError::RenderError` carrying the
underlying cause's message, and no frame is presented (the result is an
error, not a state/frame pair). -/
theorem draw_failures_render_error :
    ∀ (st : CaptureState) (decode : List Nat → Except String (List Nat))
      (why : String),
      (CaptureState.draw st (Except.error why) decode =
        Except.error (GameError.renderError why)) ∧
      (∀ raw,
        decode (vec_resize st.buffer (yuyv422_predicted_size raw.length true) 0) =
          Except.error why →
        CaptureState.draw st (Except.ok raw) decode =
          Except.error (GameError.renderError why)) := by
  intro st decode why
  constructor
  · rfl
  · intro raw h
    simp [CaptureState.draw, h]

/-- C8, witness: `draw_failures_render_error` at a concrete state, a
failing receive, and a failing decode. -/
theorem draw_failures_render_error_witness :
    CaptureState.draw ⟨[], ⟨2, 2⟩⟩ (Except.error "recv failed")
        (fun _ => Except.error "bad frame") =
      Except.error (GameError.renderError "recv failed") ∧
    CaptureState.draw ⟨[], ⟨2, 2⟩⟩ (Except.ok [1, 2, 3, 4])
        (fun _ => Except.error "bad frame") =
      Except.error (GameError.renderError "bad frame") :=
  ⟨(draw_failures_render_error ⟨[], ⟨2, 2⟩⟩
      (fun _ => Except.error "bad frame") "recv failed").1,
    (draw_failures_render_error ⟨[], ⟨2, 2⟩⟩
      (fun _ => Except.error "bad frame") "bad frame").2 [1, 2, 3, 4] rfl⟩

end Athletic




